import Mathlib

/-!
Verification of the study-motivation app's core logic (`app.py`):
the local analysis heuristics (`analyze_reason_local`), the plan builder
(`build_plan_local`), the optional Gemini enrichment (`gemini_enrich`),
and the JSON-file history store (`load_history`, `save_entry`,
`clear_history`).

Python strings are modelled as Lean `String`s, but the Python string
primitives used by the code (`str.lower`, `str.strip`, the substring
test `in`, `" ".join`) are re-defined here over `List Char` so that all
definitions reduce in the kernel.  Machine-independent integers
(`time_available_min`) are `Int`.  File-system effects are modelled by
an explicit file-content state plus a write-success oracle; a raised
exception would appear as an `Except`/`Option` value, so a function
whose result type is plain state (`FileContent`) cannot surface an
error to its caller.
-/

namespace StudyAgent

/-- ASCII lower-casing of one character, as Python's `str.lower` acts on the
ASCII inputs this app compares against. -/
def lowerChar (c : Char) : Char :=
  if 'A' ≤ c ∧ c ≤ 'Z' then Char.ofNat (c.toNat + 32) else c

/-- Python `s.lower()`. -/
def strLower (s : String) : String := ⟨s.data.map lowerChar⟩

/-- The whitespace characters removed by Python's `str.strip()`. -/
def isSpaceChar (c : Char) : Bool :=
  c == ' ' || c == '\t' || c == '\n' || c == '\r' || c == '\x0b' || c == '\x0c'

/-- Python `s.strip()`: drop leading and trailing whitespace. -/
def strTrim (s : String) : String :=
  ⟨((s.data.dropWhile isSpaceChar).reverse.dropWhile isSpaceChar).reverse⟩

/-- `needle.isPrefixOf hay`-based substring search on character lists. -/
def hasInfix (needle : List Char) : List Char → Bool
  | [] => needle.isEmpty
  | c :: cs => needle.isPrefixOf (c :: cs) || hasInfix needle cs

/-- Python `needle in hay` on strings (substring containment). -/
def strContains (hay needle : String) : Bool := hasInfix needle.data hay.data

/-- Python `" ".join(parts)`. -/
def joinSp : List String → String
  | [] => ""
  | [p] => p
  | p :: ps => p ++ " " ++ joinSp ps

/-! ### The sentence fragments of `analyze_reason_local` (app.py lines 56-81) -/

def challengeFragment : String :=
  "The topic is challenging — it likely needs smaller steps and more practice."

def manageableFragment : String :=
  "Content is manageable but may need better structure or focused sessions."

def easyFragment : String :=
  "Material seems easy — the issue may be motivation or routine."

def moodFragment : String :=
  "Current energy/mood suggests short sessions and self-care first (rest, hydration)."

def formulaFragment : String :=
  "Formulas often need active practice and spaced repetition."

def conceptFragment : String :=
  "Try visual examples and small analogies to ground abstract concepts."

def practiceFragment : String :=
  "Practice-based learning will help — start with guided examples."

def microTaskFragment : String :=
  "You have limited time — micro-tasks (10–20 min) are best."

def deepWorkFragment : String :=
  "You have long time blocks — structure them into deep-work sessions."

/-- The list `parts` built by `analyze_reason_local` (app.py lines 49-83):
difficulty heuristic, mood heuristic, reason-specific hints, time heuristic,
in that order.  `subject` is accepted but never read by the Python body. -/
def analyzeParts (subject difficulty reason_text mood : String)
    (time_available_min : Int) : List String :=
  let diff := strTrim (strLower difficulty)
  let mood_l := strTrim (strLower mood)
  let reason_l := strTrim reason_text
  (if diff == "very hard" || diff == "hard" || diff == "difficult" then
    [challengeFragment]
  else if diff == "medium" || diff == "okay" then
    [manageableFragment]
  else
    [easyFragment])
  ++ (if mood_l == "tired" || mood_l == "stressed" ||
        mood_l == "low motivation" || mood_l == "low" then
    [moodFragment]
  else [])
  ++ (if reason_l != "" then
    (if strContains reason_l "formul" || strContains reason_l "formula" then
      [formulaFragment]
    else [])
    ++ (if strContains reason_l "concept" || strContains reason_l "abstract" then
      [conceptFragment]
    else [])
    ++ (if strContains reason_l "practice" || strContains reason_l "problems" then
      [practiceFragment]
    else [])
  else [])
  ++ (if time_available_min < 30 then
    [microTaskFragment]
  else if time_available_min > 180 then
    [deepWorkFragment]
  else [])

/-- `analyze_reason_local` (app.py line 83): `" ".join(parts)`. -/
def analyze_reason_local (subject difficulty reason_text mood : String)
    (time_available_min : Int) : String :=
  joinSp (analyzeParts subject difficulty reason_text mood time_available_min)

/-! ### `build_plan_local` (app.py lines 85-153) -/

/-- One row of the weekly skeleton: `{"day": ..., "focus": ...}`. -/
structure DayPlan where
  day : String
  focus : String
deriving DecidableEq, Repr

/-- The dict returned by `build_plan_local` (app.py lines 149-153). -/
structure PlanResult where
  motivational_message : String
  today_tasks : List String
  weekly_plan : List DayPlan
deriving DecidableEq, Repr

/-- The weekly skeleton literal (app.py lines 118-126). -/
def weekly_plan_const : List DayPlan :=
  [⟨"Mon", "Core concept + 1 guided problem"⟩,
   ⟨"Tue", "Flashcards & active recall"⟩,
   ⟨"Wed", "Problem solving + explain out loud"⟩,
   ⟨"Thu", "Timed practice + error review"⟩,
   ⟨"Fri", "Mock/test-style practice"⟩,
   ⟨"Sat", "Revise weak spots"⟩,
   ⟨"Sun", "Rest + light overview"⟩]

/-- `today_tasks` for `t < 30` (app.py lines 131-135). -/
def today_tasks_short (subj : String) : List String :=
  [s!"Warm-up (5–10 min): quick recap of one key idea from {subj}.",
   "Micro-practice (10–15 min): solve one short problem or make 3 flashcards."]

/-- `today_tasks` for `30 <= t < 90` (app.py lines 136-141). -/
def today_tasks_medium (subj : String) : List String :=
  [s!"Warm-up (10 min): recap notes for {subj}.",
   "Focused session (30–40 min): deep work on one sub-topic with practice.",
   "Consolidation (10–15 min): write 5 recall questions and answers."]

/-- `today_tasks` for `t >= 90` (app.py lines 142-147). -/
def today_tasks_long (subj : String) : List String :=
  [s!"Warm-up & review (15 min): revisit yesterday's weak points in {subj}.",
   "Deep work (2 x 45–50 min): practice problems or concept mapping, with short break.",
   "Reflection (15 min): note mistakes and plan next day's focus."]

def msgHardFragment : String :=
  "Break goals into tiny steps — each small win builds momentum."

def msgSteadyFragment : String :=
  "Use focused blocks and active recall to keep progress steady."

def msgEnergizerFragment : String :=
  "Start with a 5-minute energizer (stretch/breath) then work in short bursts."

def msgWarmupFragment : String :=
  "Start strong with a short warm-up recap to prime your brain."

def msgMicroFragment : String :=
  "Micro-sessions: strict timers (15–20 min) work best right now."

def msgPomodoroFragment : String :=
  "Use 25/5 or 50/10 Pomodoro blocks depending on preference."

def msgDeepFragment : String :=
  "Combine deep sessions with short breaks and a clear end-of-day review."

/-- `subj = subject.strip() or "your topic"` (app.py line 94). -/
def normSubject (subject : String) : String :=
  if strTrim subject == "" then "your topic" else strTrim subject

/-- `build_plan_local` (app.py lines 85-153). -/
def build_plan_local (subject difficulty reason_text mood : String)
    (time_available_min : Int) : PlanResult :=
  let diff := strTrim (strLower difficulty)
  let mood_l := strTrim (strLower mood)
  let subj := normSubject subject
  let msg_parts :=
    (if diff == "very hard" || diff == "hard" || diff == "difficult" then
      [msgHardFragment]
    else
      [msgSteadyFragment])
    ++ (if mood_l == "tired" || mood_l == "stressed" ||
          mood_l == "low motivation" || mood_l == "low" then
      [msgEnergizerFragment]
    else
      [msgWarmupFragment])
    ++ (if time_available_min < 30 then
      [msgMicroFragment]
    else if time_available_min < 90 then
      [msgPomodoroFragment]
    else
      [msgDeepFragment])
  { motivational_message := joinSp msg_parts
    today_tasks :=
      if time_available_min < 30 then today_tasks_short subj
      else if time_available_min < 90 then today_tasks_medium subj
      else today_tasks_long subj
    weekly_plan := weekly_plan_const }

/-! ### History store (app.py lines 177-200)

The persisted file `data/study_motivation_history.json` is modelled by its
observable content: missing, present-but-undeserializable, or a valid JSON
array of records.  A write is `open(DATA_FILE, "w")` followed by
`json.dump`; `open` with mode `"w"` truncates the file before the dump
writes, so the oracle for a write distinguishes a failure at `open` (file
untouched) from a failure during the dump (file left truncated or
partially written, hence unparseable).  The Python functions swallow every
exception (`except Exception: pass`) and return no value, which the model
reflects by returning the new file state rather than an `Except`. -/

/-- The persisted record dict built at app.py lines 315-324. -/
structure HistoryRecord where
  timestamp : String
  subject : String
  difficulty : String
  reason : String
  mood : String
  time_available : Int
  analysis : String
  today_tasks : List String
deriving DecidableEq, Repr

/-- State of the backing file. -/
inductive FileContent
  | missing
  | corrupt
  | valid (entries : List HistoryRecord)
deriving DecidableEq, Repr

/-- `load_history` (app.py lines 177-184): `[]` when the file is absent or
`json.load` raises, the parsed array otherwise. -/
def load_history : FileContent → List HistoryRecord
  | .missing => []
  | .corrupt => []
  | .valid entries => entries

/-- Outcome of the `open(DATA_FILE, "w")` + `json.dump` sequence inside the
`try` block: both steps succeeded; `open` itself raised, so the file is
untouched; or `open` succeeded — truncating the file — and the dump then
raised, leaving truncated or partial content that later fails to parse
(a strict prefix of a JSON array document is never valid JSON). -/
inductive WriteOutcome
  | ok
  | openFail
  | midFail
deriving DecidableEq, Repr

/-- `save_entry` (app.py lines 186-193): read-append-rewrite; every
exception is swallowed, and what the file holds afterwards depends on where
the write failed. -/
def save_entry (fc : FileContent) (entry : HistoryRecord) (w : WriteOutcome) :
    FileContent :=
  let history := load_history fc ++ [entry]
  match w with
  | .ok => .valid history
  | .openFail => fc
  | .midFail => .corrupt

/-- `clear_history` (app.py lines 195-200): overwrite with `[]`, failures
swallowed, with the same write outcomes as `save_entry`. -/
def clear_history (fc : FileContent) (w : WriteOutcome) : FileContent :=
  match w with
  | .ok => .valid []
  | .openFail => fc
  | .midFail => .corrupt

/-! ### `gemini_enrich` (app.py lines 155-172)

The module-level configuration (`GOOGLE_GENAI_AVAILABLE`, `GEMINI_API_KEY`,
app.py lines 14-32) and the outcome of the network call
`genai.generate_text` are explicit parameters. -/

/-- Module configuration: whether the client library imported/configured, and
the `GEMINI_API_KEY` environment value (`none` when unset). -/
structure GeminiConfig where
  available : Bool
  apiKey : Option String
deriving DecidableEq, Repr

/-- Outcome of the external `genai.generate_text` call: a response whose
rendered text is the given string, or an exception. -/
inductive GenResult
  | success (text : String)
  | failure
deriving DecidableEq, Repr

/-- Python truthiness of `GEMINI_API_KEY`: falsy when unset or empty. -/
def keyConfigured : Option String → Bool
  | none => false
  | some k => !(k == "")

/-- The prompt preamble built at app.py lines 163-167. -/
def geminiPrompt (prompt_extra : String) : String :=
  "You are an encouraging study coach. Given the user context below, " ++
  "write a 2-3 sentence motivational paragraph and list 3 practical tasks for today.\n\n" ++
  prompt_extra

/-- `gemini_enrich` (app.py lines 155-172): `none` when the client is
unavailable or the key is falsy; otherwise the call's text on success and
`none` when the call raises (`except Exception: return None`). -/
def gemini_enrich (cfg : GeminiConfig) (call : String → GenResult)
    (prompt_extra : String) : Option String :=
  if !cfg.available || !keyConfigured cfg.apiKey then
    none
  else
    match call (geminiPrompt prompt_extra) with
    | .success text => some text
    | .failure => none

/-! ### Definitions modelled from the spec, for comparison with the code -/

/-- Modelled from the spec: a reason keyword group matches when "the
lowercased reasonText contains a keyword of that group". -/
def specReasonGroupMatch (reason_text keyword1 keyword2 : String) : Bool :=
  strContains (strLower reason_text) keyword1 ||
    strContains (strLower reason_text) keyword2

/-- Modelled from the spec: the difficulty string is "a value in the group
(any letter case)", i.e. its lowercasing equals one of the group's
lowercased values. -/
def specDifficultyIn (difficulty : String) (group : List String) : Bool :=
  (group.map strLower).contains (strLower difficulty)

/-! ### Helper lemmas: membership in the `parts` list of `analyze_reason_local` -/

theorem mem_ite_singleton {b : Bool} {x y : String} :
    x ∈ (if b = true then [y] else ([] : List String)) ↔ b = true ∧ x = y := by
  cases b <;> simp

theorem mem_ite3 {b1 b2 : Bool} {x a c e : String} :
    x ∈ (if b1 = true then [a] else if b2 = true then [c] else [e]) ↔
      (b1 = true ∧ x = a) ∨ (b1 = false ∧ b2 = true ∧ x = c) ∨
      (b1 = false ∧ b2 = false ∧ x = e) := by
  cases b1 <;> cases b2 <;> simp

theorem mem_ite3_nil {p q : Prop} [Decidable p] [Decidable q] {x a c : String} :
    x ∈ (if p then [a] else if q then [c] else ([] : List String)) ↔
      (p ∧ x = a) ∨ (¬p ∧ q ∧ x ∈ [c]) := by
  by_cases hp : p <;> by_cases hq : q <;> simp [hp, hq]

theorem mem_ite_list {b : Bool} {x : String} {l : List String} :
    x ∈ (if b = true then l else []) ↔ b = true ∧ x ∈ l := by
  cases b <;> simp

theorem mem_challenge (s d r m : String) (t : Int) :
    challengeFragment ∈ analyzeParts s d r m t ↔
      (strTrim (strLower d) == "very hard" || strTrim (strLower d) == "hard" ||
        strTrim (strLower d) == "difficult") = true := by
  by_cases h : strTrim r = ""
  · simp only [analyzeParts, List.mem_append, mem_ite3, mem_ite_singleton, mem_ite_list,
      mem_ite3_nil, h]
    simp [formulaFragment, challengeFragment, manageableFragment, easyFragment, moodFragment,
      conceptFragment, practiceFragment, microTaskFragment, deepWorkFragment,
      strContains, hasInfix]
  · simp only [analyzeParts, List.mem_append, mem_ite3, mem_ite_singleton, mem_ite_list,
      mem_ite3_nil]
    simp [formulaFragment, challengeFragment, manageableFragment, easyFragment, moodFragment,
      conceptFragment, practiceFragment, microTaskFragment, deepWorkFragment, h]

theorem mem_manageable (s d r m : String) (t : Int) :
    manageableFragment ∈ analyzeParts s d r m t ↔
      ((strTrim (strLower d) == "very hard" || strTrim (strLower d) == "hard" ||
        strTrim (strLower d) == "difficult") = false ∧
       (strTrim (strLower d) == "medium" || strTrim (strLower d) == "okay") = true) := by
  by_cases h : strTrim r = ""
  · simp only [analyzeParts, List.mem_append, mem_ite3, mem_ite_singleton, mem_ite_list,
      mem_ite3_nil, h]
    simp [formulaFragment, challengeFragment, manageableFragment, easyFragment, moodFragment,
      conceptFragment, practiceFragment, microTaskFragment, deepWorkFragment,
      strContains, hasInfix]
  · simp only [analyzeParts, List.mem_append, mem_ite3, mem_ite_singleton, mem_ite_list,
      mem_ite3_nil]
    simp [formulaFragment, challengeFragment, manageableFragment, easyFragment, moodFragment,
      conceptFragment, practiceFragment, microTaskFragment, deepWorkFragment, h]

theorem mem_easy (s d r m : String) (t : Int) :
    easyFragment ∈ analyzeParts s d r m t ↔
      ((strTrim (strLower d) == "very hard" || strTrim (strLower d) == "hard" ||
        strTrim (strLower d) == "difficult") = false ∧
       (strTrim (strLower d) == "medium" || strTrim (strLower d) == "okay") = false) := by
  by_cases h : strTrim r = ""
  · simp only [analyzeParts, List.mem_append, mem_ite3, mem_ite_singleton, mem_ite_list,
      mem_ite3_nil, h]
    simp [formulaFragment, challengeFragment, manageableFragment, easyFragment, moodFragment,
      conceptFragment, practiceFragment, microTaskFragment, deepWorkFragment,
      strContains, hasInfix]
  · simp only [analyzeParts, List.mem_append, mem_ite3, mem_ite_singleton, mem_ite_list,
      mem_ite3_nil]
    simp [formulaFragment, challengeFragment, manageableFragment, easyFragment, moodFragment,
      conceptFragment, practiceFragment, microTaskFragment, deepWorkFragment, h]

theorem mem_formula (s d r m : String) (t : Int) :
    formulaFragment ∈ analyzeParts s d r m t ↔
      (strContains (strTrim r) "formul" || strContains (strTrim r) "formula") = true := by
  by_cases h : strTrim r = ""
  · simp only [analyzeParts, List.mem_append, mem_ite3, mem_ite_singleton, mem_ite_list,
      mem_ite3_nil, h]
    simp [formulaFragment, challengeFragment, manageableFragment, easyFragment, moodFragment,
      conceptFragment, practiceFragment, microTaskFragment, deepWorkFragment,
      strContains, hasInfix]
  · simp only [analyzeParts, List.mem_append, mem_ite3, mem_ite_singleton, mem_ite_list,
      mem_ite3_nil]
    simp [formulaFragment, challengeFragment, manageableFragment, easyFragment, moodFragment,
      conceptFragment, practiceFragment, microTaskFragment, deepWorkFragment, h]

theorem mem_concept (s d r m : String) (t : Int) :
    conceptFragment ∈ analyzeParts s d r m t ↔
      (strContains (strTrim r) "concept" || strContains (strTrim r) "abstract") = true := by
  by_cases h : strTrim r = ""
  · simp only [analyzeParts, List.mem_append, mem_ite3, mem_ite_singleton, mem_ite_list,
      mem_ite3_nil, h]
    simp [formulaFragment, challengeFragment, manageableFragment, easyFragment, moodFragment,
      conceptFragment, practiceFragment, microTaskFragment, deepWorkFragment,
      strContains, hasInfix]
  · simp only [analyzeParts, List.mem_append, mem_ite3, mem_ite_singleton, mem_ite_list,
      mem_ite3_nil]
    simp [formulaFragment, challengeFragment, manageableFragment, easyFragment, moodFragment,
      conceptFragment, practiceFragment, microTaskFragment, deepWorkFragment, h]

theorem mem_practice (s d r m : String) (t : Int) :
    practiceFragment ∈ analyzeParts s d r m t ↔
      (strContains (strTrim r) "practice" || strContains (strTrim r) "problems") = true := by
  by_cases h : strTrim r = ""
  · simp only [analyzeParts, List.mem_append, mem_ite3, mem_ite_singleton, mem_ite_list,
      mem_ite3_nil, h]
    simp [formulaFragment, challengeFragment, manageableFragment, easyFragment, moodFragment,
      conceptFragment, practiceFragment, microTaskFragment, deepWorkFragment,
      strContains, hasInfix]
  · simp only [analyzeParts, List.mem_append, mem_ite3, mem_ite_singleton, mem_ite_list,
      mem_ite3_nil]
    simp [formulaFragment, challengeFragment, manageableFragment, easyFragment, moodFragment,
      conceptFragment, practiceFragment, microTaskFragment, deepWorkFragment, h]

theorem mem_micro (s d r m : String) (t : Int) :
    microTaskFragment ∈ analyzeParts s d r m t ↔ t < 30 := by
  by_cases h : strTrim r = ""
  · simp only [analyzeParts, List.mem_append, mem_ite3, mem_ite_singleton, mem_ite_list,
      mem_ite3_nil, h]
    simp [formulaFragment, challengeFragment, manageableFragment, easyFragment, moodFragment,
      conceptFragment, practiceFragment, microTaskFragment, deepWorkFragment,
      strContains, hasInfix]
  · simp only [analyzeParts, List.mem_append, mem_ite3, mem_ite_singleton, mem_ite_list,
      mem_ite3_nil]
    simp [formulaFragment, challengeFragment, manageableFragment, easyFragment, moodFragment,
      conceptFragment, practiceFragment, microTaskFragment, deepWorkFragment, h]

theorem mem_deep (s d r m : String) (t : Int) :
    deepWorkFragment ∈ analyzeParts s d r m t ↔ t > 180 := by
  by_cases h : strTrim r = ""
  · simp only [analyzeParts, List.mem_append, mem_ite3, mem_ite_singleton, mem_ite_list,
      mem_ite3_nil, h]
    simp [formulaFragment, challengeFragment, manageableFragment, easyFragment, moodFragment,
      conceptFragment, practiceFragment, microTaskFragment, deepWorkFragment,
      strContains, hasInfix]
    omega
  · simp only [analyzeParts, List.mem_append, mem_ite3, mem_ite_singleton, mem_ite_list,
      mem_ite3_nil]
    simp [formulaFragment, challengeFragment, manageableFragment, easyFragment, moodFragment,
      conceptFragment, practiceFragment, microTaskFragment, deepWorkFragment, h]
    omega

theorem data_append (a b : String) : (a ++ b).data = a.data ++ b.data := rfl

theorem joinSp_cons_ne (x : String) (l : List String) (hx : x.data ≠ []) :
    joinSp (x :: l) ≠ "" := by
  cases l with
  | nil =>
      intro hc
      simp only [joinSp] at hc
      exact hx (by rw [hc])
  | cons y ys =>
      intro hc
      simp only [joinSp] at hc
      have hd := congrArg String.data hc
      rw [data_append, data_append] at hd
      simp at hd

theorem analyze_ne_empty (s d r m : String) (t : Int) :
    analyze_reason_local s d r m t ≠ "" := by
  simp only [analyze_reason_local, analyzeParts, List.append_assoc]
  split
  · rw [List.singleton_append]
    exact joinSp_cons_ne _ _ (by decide)
  · split
    · rw [List.singleton_append]
      exact joinSp_cons_ne _ _ (by decide)
    · rw [List.singleton_append]
      exact joinSp_cons_ne _ _ (by decide)

/-! ### The claims -/

/-- Claim C1, counterexample: the spec-side matching predicate lowercases
`reasonText`, but `analyze_reason_local` only strips it, so for the input
"FORMULAS" the spec predicts the formula fragment and the code omits it. -/
theorem reason_keyword_case_counterexample :
    specReasonGroupMatch "FORMULAS" "formul" "formula" = true ∧
    formulaFragment ∉ analyzeParts "algebra" "Easy" "FORMULAS" "Focused" 60 := by
  decide

/-- Claim C1 as amended: each reason-keyword fragment is appended iff the
stripped `reasonText` contains (case-sensitively, no lowercasing) a keyword
of its group; all matching groups append, and the input
"too many formulas and concepts" yields the formula and concept fragments
but not the practice fragment. -/
theorem reason_keyword_fragments (s d r m : String) (t : Int) :
    (formulaFragment ∈ analyzeParts s d r m t ↔
      (strContains (strTrim r) "formul" || strContains (strTrim r) "formula") = true) ∧
    (conceptFragment ∈ analyzeParts s d r m t ↔
      (strContains (strTrim r) "concept" || strContains (strTrim r) "abstract") = true) ∧
    (practiceFragment ∈ analyzeParts s d r m t ↔
      (strContains (strTrim r) "practice" || strContains (strTrim r) "problems") = true) ∧
    formulaFragment ∈ analyzeParts s d "too many formulas and concepts" m t ∧
    conceptFragment ∈ analyzeParts s d "too many formulas and concepts" m t ∧
    practiceFragment ∉ analyzeParts s d "too many formulas and concepts" m t :=
  ⟨mem_formula s d r m t, mem_concept s d r m t, mem_practice s d r m t,
   (mem_formula s d "too many formulas and concepts" m t).mpr (by decide),
   (mem_concept s d "too many formulas and concepts" m t).mpr (by decide),
   fun hmem =>
     absurd ((mem_practice s d "too many formulas and concepts" m t).mp hmem) (by decide)⟩

/-- Claim C2, counterexample: a write failure during the dump, after
`open(DATA_FILE, "w")` has truncated the file, does change the persisted
sequence — a store holding one record is left unparseable, so the next load
reads the empty sequence, not the record saved before the failed append. -/
theorem save_entry_midwrite_counterexample :
    load_history
        (save_entry
          (FileContent.valid
            [⟨"2024-01-01T00:00:00", "Algebra", "Hard", "", "Tired", 60, "a", []⟩])
          ⟨"2024-01-02T00:00:00", "Algebra", "Hard", "", "Tired", 60, "a", []⟩
          WriteOutcome.midFail) ≠
      load_history
        (FileContent.valid
          [⟨"2024-01-01T00:00:00", "Algebra", "Hard", "", "Tired", 60, "a", []⟩]) := by
  decide

/-- Claim C2 as amended: every write failure in `save_entry` is swallowed —
the model returns a plain file state, never an error value.  A failure at
`open` leaves the persisted sequence unchanged, but a failure during the
dump happens after `open` has truncated the file and leaves truncated or
partial content, which the next `load_history` reads as the empty
sequence; the append is not atomic on error. -/
theorem save_entry_write_failure_swallowed (fc : FileContent) (e : HistoryRecord) :
    save_entry fc e WriteOutcome.openFail = fc ∧
    load_history (save_entry fc e WriteOutcome.openFail) = load_history fc ∧
    save_entry fc e WriteOutcome.midFail = FileContent.corrupt ∧
    load_history (save_entry fc e WriteOutcome.midFail) = [] :=
  ⟨rfl, rfl, rfl, rfl⟩

/-- Claim C3: `today_tasks` is chosen by three mutually exclusive time
buckets — under 30 minutes gives the 2-item list, 30 to 89 the 3-item
medium list, 90 and up the 3-item long list — and the three bucket lists
are pairwise distinct for every subject. -/
theorem build_plan_today_tasks_buckets (s d r m : String) (t : Int) :
    (t < 30 → (build_plan_local s d r m t).today_tasks = today_tasks_short (normSubject s) ∧
      (build_plan_local s d r m t).today_tasks.length = 2) ∧
    (30 ≤ t → t < 90 →
      (build_plan_local s d r m t).today_tasks = today_tasks_medium (normSubject s) ∧
      (build_plan_local s d r m t).today_tasks.length = 3) ∧
    (90 ≤ t → (build_plan_local s d r m t).today_tasks = today_tasks_long (normSubject s) ∧
      (build_plan_local s d r m t).today_tasks.length = 3) ∧
    today_tasks_short (normSubject s) ≠ today_tasks_medium (normSubject s) ∧
    today_tasks_medium (normSubject s) ≠ today_tasks_long (normSubject s) ∧
    today_tasks_short (normSubject s) ≠ today_tasks_long (normSubject s) := by
  refine ⟨?_, ?_, ?_, ?_, ?_, ?_⟩
  · intro h
    simp [build_plan_local, h, today_tasks_short]
  · intro h1 h2
    simp [build_plan_local, show ¬(t < 30) by omega, h2, today_tasks_medium]
  · intro h
    simp [build_plan_local, show ¬(t < 30) by omega, show ¬(t < 90) by omega, today_tasks_long]
  · simp [today_tasks_short, today_tasks_medium]
  · simp [today_tasks_medium, today_tasks_long]
  · simp [today_tasks_short, today_tasks_long]

/-- Witness for C3 at the spec's sample points 15, 60 and 200 minutes. -/
theorem build_plan_today_tasks_buckets_witness :
    (build_plan_local "Algebra" "Hard" "" "Tired" 15).today_tasks.length = 2 ∧
    (build_plan_local "Algebra" "Hard" "" "Tired" 60).today_tasks.length = 3 ∧
    (build_plan_local "Algebra" "Hard" "" "Tired" 200).today_tasks.length = 3 :=
  ⟨((build_plan_today_tasks_buckets "Algebra" "Hard" "" "Tired" 15).1 (by decide)).2,
   ((build_plan_today_tasks_buckets "Algebra" "Hard" "" "Tired" 60).2.1
     (by decide) (by decide)).2,
   ((build_plan_today_tasks_buckets "Algebra" "Hard" "" "Tired" 200).2.2.1 (by decide)).2⟩

/-- Claim C4: on a successful write, `save_entry` followed by `load_history`
gives exactly the previous sequence with the new record at the end, and a
successful `clear_history` followed by `load_history` gives the empty
sequence. -/
theorem history_append_clear_roundtrip (fc : FileContent) (e : HistoryRecord) :
    load_history (save_entry fc e WriteOutcome.ok) = load_history fc ++ [e] ∧
    (load_history (save_entry fc e WriteOutcome.ok)).getLast? = some e ∧
    load_history (clear_history fc WriteOutcome.ok) = [] := by
  refine ⟨rfl, ?_, rfl⟩
  show (load_history fc ++ [e]).getLast? = some e
  simp

/-- Claim C5: `load_history` is a total function into record lists (so no
error can be surfaced) and returns the empty sequence both when the backing
file is missing and when reading/deserializing it fails. -/
theorem load_history_missing_or_corrupt_empty :
    load_history FileContent.missing = [] ∧
    load_history FileContent.corrupt = [] :=
  ⟨rfl, rfl⟩

/-- Claim C6, counterexample: the difficulty " hard " (with trailing
whitespace) is in neither spec group in any letter case, so the spec
predicts the easy fragment, but the code strips whitespace and emits the
challenge fragment. -/
theorem difficulty_anycase_counterexample :
    specDifficultyIn "hard " ["Very Hard", "Hard", "Difficult"] = false ∧
    specDifficultyIn "hard " ["Medium", "Okay"] = false ∧
    easyFragment ∉ analyzeParts "s" "hard " "" "Focused" 60 ∧
    challengeFragment ∈ analyzeParts "s" "hard " "" "Focused" 60 := by
  decide

/-- Claim C6 as amended: with difficulty compared after lowercasing and
stripping surrounding whitespace, exactly one of the three difficulty
fragments fires — {"very hard","hard","difficult"} the challenge fragment,
{"medium","okay"} the manageable fragment, anything else the easy
fragment — and the analysis string is never empty. -/
theorem difficulty_fragment_trichotomy (s d r m : String) (t : Int) :
    (challengeFragment ∈ analyzeParts s d r m t ↔
      (strTrim (strLower d) == "very hard" || strTrim (strLower d) == "hard" ||
        strTrim (strLower d) == "difficult") = true) ∧
    (manageableFragment ∈ analyzeParts s d r m t ↔
      ((strTrim (strLower d) == "very hard" || strTrim (strLower d) == "hard" ||
        strTrim (strLower d) == "difficult") = false ∧
       (strTrim (strLower d) == "medium" || strTrim (strLower d) == "okay") = true)) ∧
    (easyFragment ∈ analyzeParts s d r m t ↔
      ((strTrim (strLower d) == "very hard" || strTrim (strLower d) == "hard" ||
        strTrim (strLower d) == "difficult") = false ∧
       (strTrim (strLower d) == "medium" || strTrim (strLower d) == "okay") = false)) ∧
    ((challengeFragment ∈ analyzeParts s d r m t ∧
        manageableFragment ∉ analyzeParts s d r m t ∧
        easyFragment ∉ analyzeParts s d r m t) ∨
     (challengeFragment ∉ analyzeParts s d r m t ∧
        manageableFragment ∈ analyzeParts s d r m t ∧
        easyFragment ∉ analyzeParts s d r m t) ∨
     (challengeFragment ∉ analyzeParts s d r m t ∧
        manageableFragment ∉ analyzeParts s d r m t ∧
        easyFragment ∈ analyzeParts s d r m t)) ∧
    analyze_reason_local s d r m t ≠ "" := by
  refine ⟨mem_challenge s d r m t, mem_manageable s d r m t, mem_easy s d r m t, ?_,
    analyze_ne_empty s d r m t⟩
  rw [mem_challenge s d r m t, mem_manageable s d r m t, mem_easy s d r m t]
  cases h1 : (strTrim (strLower d) == "very hard" || strTrim (strLower d) == "hard" ||
      strTrim (strLower d) == "difficult") <;>
    cases h2 : (strTrim (strLower d) == "medium" || strTrim (strLower d) == "okay") <;>
      simp

/-- Claim C7: a time fragment is appended iff `time_available_min < 30`
(micro-task tip) or `> 180` (deep-work tip); in the inclusive range
[30, 180] neither time fragment appears. -/
theorem time_fragment_iff_bounds (s d r m : String) (t : Int) :
    (microTaskFragment ∈ analyzeParts s d r m t ↔ t < 30) ∧
    (deepWorkFragment ∈ analyzeParts s d r m t ↔ t > 180) ∧
    (30 ≤ t → t ≤ 180 →
      microTaskFragment ∉ analyzeParts s d r m t ∧
      deepWorkFragment ∉ analyzeParts s d r m t) := by
  refine ⟨mem_micro s d r m t, mem_deep s d r m t, fun h1 h2 => ⟨?_, ?_⟩⟩
  · intro hmem
    have := (mem_micro s d r m t).mp hmem
    omega
  · intro hmem
    have := (mem_deep s d r m t).mp hmem
    omega

/-- Witness for C7 at 15, 200 and 60 minutes. -/
theorem time_fragment_iff_bounds_witness :
    microTaskFragment ∈ analyzeParts "Algebra" "Hard" "" "Tired" 15 ∧
    deepWorkFragment ∈ analyzeParts "Algebra" "Hard" "" "Tired" 200 ∧
    microTaskFragment ∉ analyzeParts "Algebra" "Hard" "" "Tired" 60 ∧
    deepWorkFragment ∉ analyzeParts "Algebra" "Hard" "" "Tired" 60 :=
  ⟨(time_fragment_iff_bounds "Algebra" "Hard" "" "Tired" 15).1.mpr (by decide),
   (time_fragment_iff_bounds "Algebra" "Hard" "" "Tired" 200).2.1.mpr (by decide),
   ((time_fragment_iff_bounds "Algebra" "Hard" "" "Tired" 60).2.2 (by decide) (by decide)).1,
   ((time_fragment_iff_bounds "Algebra" "Hard" "" "Tired" 60).2.2 (by decide) (by decide)).2⟩

/-- Claim C8: the weekly plan is the same constant 7-row Monday-to-Sunday
skeleton whatever the inputs are. -/
theorem weekly_plan_constant (s d r m : String) (t : Int)
    (s' d' r' m' : String) (t' : Int) :
    (build_plan_local s d r m t).weekly_plan = weekly_plan_const ∧
    (build_plan_local s d r m t).weekly_plan.length = 7 ∧
    (build_plan_local s d r m t).weekly_plan.map DayPlan.day =
      ["Mon", "Tue", "Wed", "Thu", "Fri", "Sat", "Sun"] ∧
    (build_plan_local s d r m t).weekly_plan = (build_plan_local s' d' r' m' t').weekly_plan :=
  ⟨rfl, rfl, rfl, rfl⟩

/-- Claim C9: `gemini_enrich` returns `none` when the client library is
unavailable, when the API key is unset or falsy, and when the external call
raises; its total `Option` return type is the "never propagates an error"
contract. -/
theorem gemini_enrich_silent_absent (cfg : GeminiConfig) (call : String → GenResult)
    (p : String) :
    (keyConfigured cfg.apiKey = false → gemini_enrich cfg call p = none) ∧
    (cfg.available = false → gemini_enrich cfg call p = none) ∧
    (call (geminiPrompt p) = GenResult.failure → gemini_enrich cfg call p = none) := by
  refine ⟨?_, ?_, ?_⟩
  · intro h
    simp [gemini_enrich, h]
  · intro h
    simp [gemini_enrich, h]
  · intro h
    by_cases hc : (!cfg.available || !keyConfigured cfg.apiKey) = true
    · simp [gemini_enrich, hc]
    · simp [gemini_enrich, hc, h]

/-- Witness for C9: missing key, unavailable client, and a raising call all
yield `none`. -/
theorem gemini_enrich_silent_absent_witness :
    gemini_enrich ⟨true, none⟩ (fun _ => GenResult.success "text") "ctx" = none ∧
    gemini_enrich ⟨false, some "key"⟩ (fun _ => GenResult.success "text") "ctx" = none ∧
    gemini_enrich ⟨true, some "key"⟩ (fun _ => GenResult.failure) "ctx" = none :=
  ⟨(gemini_enrich_silent_absent ⟨true, none⟩ (fun _ => GenResult.success "text") "ctx").1 rfl,
   (gemini_enrich_silent_absent ⟨false, some "key"⟩
     (fun _ => GenResult.success "text") "ctx").2.1 rfl,
   (gemini_enrich_silent_absent ⟨true, some "key"⟩
     (fun _ => GenResult.failure) "ctx").2.2 rfl⟩

/-- Claim C10: `analyze_reason_local` never reads its `subject` argument, so
any two subjects with the other arguments identical give the same
analysis. -/
theorem analyze_subject_independent (s1 s2 d r m : String) (t : Int) :
    analyze_reason_local s1 d r m t = analyze_reason_local s2 d r m t :=
  rfl

end StudyAgent
